import Mathlib

/-!
# Verification of the invoice computation and lifecycle engine

Shallow embedding of the core invoice engine of the billing-system
repository (`src/backend/invoice-service`): the `LineItem` and `Invoice`
pydantic models (`src/models/invoice.py`) and the generation service
(`src/services/invoice_generator.py`).

Modelling conventions:
* Python `Decimal` values are embedded as `ℚ`; `quantize(Decimal('0.01'),
  rounding=ROUND_HALF_UP)` is `roundHalfUp2` (half away from zero, matching
  `ROUND_HALF_UP` on either sign).
* pydantic validators that `raise ValueError` become `Except Err` results;
  the distinct raise sites are distinguished by `Err` constructors, each
  carrying exactly the data interpolated into the Python message.
* Fields that no claim touches (`id`, `issue_date`, `due_date`,
  `payment_details`) are omitted from the record; their validators do not
  interact with the embedded ones.
* `customer_details` is an untyped dict in the source with four required
  keys; it is embedded as a record of `Option String` fields where `some`
  means the key is present (possibly with an empty-string value, which
  Python treats as falsy in `validate_tax_type`).
* The nondeterministic parts of invoice-number generation (current date,
  uuid) are passed in as explicit `String` arguments.
-/

/-- `Decimal.quantize(Decimal('0.01'), rounding=ROUND_HALF_UP)`:
round to 2 decimal places, ties away from zero. -/
def roundHalfUp2 (x : ℚ) : ℚ :=
  if 0 ≤ x then (⌊x * 100 + 1/2⌋ : ℚ) / 100
  else -((⌊-x * 100 + 1/2⌋ : ℚ) / 100)

/-- `x` is representable with at most 2 decimal places. -/
def IsTwoDp (x : ℚ) : Prop := ∃ n : ℤ, x = (n : ℚ) / 100

/-- pydantic's `Field(decimal_places=2)` constraint check, as a boolean. -/
def hasAtMost2Dp (x : ℚ) : Bool := (x * 100).den == 1

theorem isTwoDp_of_hasAtMost2Dp {x : ℚ} (h : hasAtMost2Dp x = true) :
    IsTwoDp x := by
  have hd : (x * 100).den = 1 := by simpa [hasAtMost2Dp] using h
  refine ⟨(x * 100).num, ?_⟩
  have := (Rat.den_eq_one_iff (x * 100)).mp hd
  rw [this]
  field_simp

theorem isTwoDp_add {x y : ℚ} (hx : IsTwoDp x) (hy : IsTwoDp y) :
    IsTwoDp (x + y) := by
  obtain ⟨n, rfl⟩ := hx
  obtain ⟨m, rfl⟩ := hy
  exact ⟨n + m, by push_cast; ring⟩

theorem roundHalfUp2_intDiv (n : ℤ) : roundHalfUp2 ((n : ℚ) / 100) = (n : ℚ) / 100 := by
  have h100 : (100 : ℚ) ≠ 0 := by norm_num
  have hx : ((n : ℚ) / 100) * 100 = (n : ℚ) := by field_simp
  have hfloor : ∀ m : ℤ, ⌊(m : ℚ) + 1/2⌋ = m := by
    intro m
    rw [add_comm, Int.floor_add_int]
    norm_num
  unfold roundHalfUp2
  split
  · rw [hx, hfloor]
  · rw [show -((n : ℚ) / 100) = ((-n : ℤ) : ℚ) / 100 by push_cast; ring,
      show (((-n : ℤ) : ℚ) / 100) * 100 = ((-n : ℤ) : ℚ) by field_simp,
      hfloor]
    push_cast
    ring

theorem roundHalfUp2_of_isTwoDp {x : ℚ} (h : IsTwoDp x) : roundHalfUp2 x = x := by
  obtain ⟨n, rfl⟩ := h
  exact roundHalfUp2_intDiv n

theorem isTwoDp_roundHalfUp2 (x : ℚ) : IsTwoDp (roundHalfUp2 x) := by
  unfold roundHalfUp2
  split
  · exact ⟨⌊x * 100 + 1/2⌋, rfl⟩
  · exact ⟨-⌊-x * 100 + 1/2⌋, by push_cast; ring⟩

/-- The typed error outcomes of the engine's `raise ValueError(...)` sites. -/
inductive Err where
  /-- a pydantic `Field` constraint (length / range / regex) failed. -/
  | fieldError (fld : String) : Err
  /-- "Currency {v} not supported. Must be one of {...}" -/
  | unsupportedCurrency (c : String) : Err
  /-- "Invalid status. Must be one of {INVOICE_STATUSES}" -/
  | invalidStatusValue (s : String) : Err
  /-- "Customer details must contain: {required_fields}" -/
  | missingCustomerFields : Err
  /-- "All line items must use the same currency as the invoice"
  (model-level check in `Invoice.calculate_totals`; names no currencies). -/
  | currencyMismatchModel : Err
  /-- "Line item currency {item} does not match invoice currency {inv}"
  (service-level check in `_validate_line_items`; names both currencies). -/
  | currencyMismatchService (itemCur invCur : String) : Err
  /-- "Customer state is required for tax calculation" -/
  | missingCustomerState : Err
  /-- "Invalid tax type {tax_type}" -/
  | invalidTaxType (t : String) : Err
  /-- Python `KeyError` from `TAX_RATES[tax_type]`. -/
  | keyError (k : String) : Err
  /-- "Invalid status {new_status}" in `validate_state_transition`. -/
  | invalidStatusTarget (s : String) : Err
  /-- "Invalid transition from {self.status} to {new_status}" -/
  | invalidTransition (src tgt : String) : Err
  /-- "Invoice must have at least one line item" -/
  | emptyLineItems : Err
  deriving Repr, DecidableEq

/-- `SUPPORTED_CURRENCIES` (`Settings().SUPPORTED_CURRENCIES` default). -/
def SUPPORTED_CURRENCIES : List String := ["USD", "INR", "IDR"]

/-- `INVOICE_STATUSES` constant. -/
def INVOICE_STATUSES : List String := ["DRAFT", "PENDING", "PAID", "OVERDUE", "CANCELLED"]

/-- `TAX_RATES` dict, as a partial lookup. -/
def TAX_RATES (t : String) : Option ℚ :=
  if t = "GST" then some (18/100)
  else if t = "IGST" then some (18/100)
  else none

/-- `ALLOWED_STATE_TRANSITIONS.get(s, [])`. -/
def ALLOWED_STATE_TRANSITIONS (s : String) : List String :=
  if s = "DRAFT" then ["PENDING"]
  else if s = "PENDING" then ["PAID", "OVERDUE", "CANCELLED"]
  else if s = "OVERDUE" then ["PAID", "CANCELLED"]
  else if s = "PAID" then []
  else if s = "CANCELLED" then []
  else []

/-- the `regex='^[A-Z]{3}$'` check on currency codes. -/
def isUpperAlpha3 (s : String) : Bool :=
  s.length == 3 && s.data.all (fun c => 'A' ≤ c && c ≤ 'Z')

/-- Python truthiness of an optional string (`None` and `""` are falsy). -/
def truthyOpt : Option String → Bool
  | none => false
  | some s => s ≠ ""

/-- A validated `LineItem` (id omitted; no claim touches it). -/
structure LineItem where
  service_name : String
  description : String
  quantity : Int
  unit_price : ℚ
  amount : ℚ
  currency_code : String
  deriving Repr, DecidableEq

/-- Raw input fields for `LineItem(**d)`. `amount` may be supplied but is
overwritten by the `calculate_amount` root validator. -/
structure LineItemInput where
  service_name : String
  description : String
  quantity : Int
  unit_price : ℚ
  amount : Option ℚ := none
  currency_code : String
  deriving Repr, DecidableEq

/-- `LineItem.calculate_amount` root validator: recompute `amount` from
`quantity` and `unit_price` with ROUND_HALF_UP quantization. -/
def LineItem.calculate_amount (it : LineItem) : LineItem :=
  { it with amount := roundHalfUp2 ((it.quantity : ℚ) * it.unit_price) }

/-- `LineItem(**d)`: pydantic field validation in declaration order,
then the `calculate_amount` root validator. -/
def mkLineItem (d : LineItemInput) : Except Err LineItem :=
  if ¬ (1 ≤ d.service_name.length ∧ d.service_name.length ≤ 100) then
    .error (.fieldError "service_name")
  else if ¬ (1 ≤ d.description.length ∧ d.description.length ≤ 500) then
    .error (.fieldError "description")
  else if ¬ (0 < d.quantity) then .error (.fieldError "quantity")
  else if ¬ (hasAtMost2Dp d.unit_price = true ∧ 0 < d.unit_price) then
    .error (.fieldError "unit_price")
  else if ¬ (isUpperAlpha3 d.currency_code = true) then
    .error (.fieldError "currency_code")
  else if ¬ (d.currency_code ∈ SUPPORTED_CURRENCIES) then
    .error (.unsupportedCurrency d.currency_code)
  else
    .ok (LineItem.calculate_amount
      { service_name := d.service_name
        description := d.description
        quantity := d.quantity
        unit_price := d.unit_price
        amount := d.amount.getD 0
        currency_code := d.currency_code })

/-- Assignment `item.quantity = q` under `validate_assignment = True`:
the field constraint is re-checked and `calculate_amount` recomputes. -/
def LineItem.setQuantity (it : LineItem) (q : Int) : Except Err LineItem :=
  if 0 < q then .ok ({ it with quantity := q }.calculate_amount)
  else .error (.fieldError "quantity")

/-- Assignment `item.unit_price = p` under `validate_assignment = True`. -/
def LineItem.setUnitPrice (it : LineItem) (p : ℚ) : Except Err LineItem :=
  if hasAtMost2Dp p = true ∧ 0 < p then
    .ok ({ it with unit_price := p }.calculate_amount)
  else .error (.fieldError "unit_price")

/-- Assignment `item.amount = a`: re-validation runs `calculate_amount`,
which overwrites `a` with the recomputed product. -/
def LineItem.setAmount (it : LineItem) (a : ℚ) : LineItem :=
  { it with amount := a }.calculate_amount

theorem hasAtMost2Dp_intDiv (n : ℤ) : hasAtMost2Dp ((n : ℚ) / 100) = true := by
  have h : ((n : ℚ) / 100) * 100 = (n : ℚ) := by field_simp
  simp [hasAtMost2Dp, h]

/-- Input of the worked example: one line item, qty 1000, unit price 0.01. -/
def exampleItemInput : LineItemInput :=
  { service_name := "OTP"
    description := "auth"
    quantity := 1000
    unit_price := 1/100
    currency_code := "USD" }

example :
    mkLineItem exampleItemInput =
      .ok { service_name := "OTP"
            description := "auth"
            quantity := 1000
            unit_price := 1/100
            amount := 10
            currency_code := "USD" } := by
  have h2 : hasAtMost2Dp ((1 : ℚ)/100) = true := by
    have : ((1 : ℚ)/100) = ((1 : ℤ) : ℚ) / 100 := by norm_num
    rw [this]; exact hasAtMost2Dp_intDiv 1
  norm_num +decide [mkLineItem, exampleItemInput, h2, isUpperAlpha3, SUPPORTED_CURRENCIES,
    LineItem.calculate_amount, roundHalfUp2]

example : roundHalfUp2 (9/5) = 9/5 := by norm_num [roundHalfUp2]
example : roundHalfUp2 (10 * (18/100)) = 9/5 := by norm_num [roundHalfUp2]

/-- The `customer_details` dict. `some` means the key is present; the
`validate_customer_details` validator only checks key presence. -/
structure CustomerDetails where
  name : Option String := none
  address : Option String := none
  tax_id : Option String := none
  state : Option String := none
  deriving Repr, DecidableEq

/-- `validate_customer_details`: all four required keys present. -/
def CustomerDetails.hasRequiredFields (cd : CustomerDetails) : Bool :=
  cd.name.isSome && cd.address.isSome && cd.tax_id.isSome && cd.state.isSome

/-- The `Invoice` pydantic model (`id`, `issue_date`, `due_date`,
`payment_details` omitted; no claim touches them). -/
structure Invoice where
  customer_id : Nat
  invoice_number : Option String := none
  status : String := "DRAFT"
  currency_code : String
  line_items : List LineItem := []
  subtotal : ℚ := 0
  tax_amount : ℚ := 0
  tax_type : Option String := none
  total_amount : ℚ := 0
  customer_details : CustomerDetails
  notes : Option String := none
  deriving Repr, DecidableEq

/-- `Invoice.calculate_totals` root validator: early return on empty
line items; currency-consistency check; subtotal; tax and total when
`tax_type` is truthy (note: the tax line multiplies the *unrounded*
subtotal, and the no-tax branch stores the unrounded subtotal as total,
exactly as the source does). -/
def Invoice.calculate_totals (inv : Invoice) : Except Err Invoice :=
  if inv.line_items = [] then .ok inv
  else if ¬ (inv.line_items.all fun it => it.currency_code == inv.currency_code) then
    .error .currencyMismatchModel
  else
    match inv.tax_type with
    | some t =>
      if t = "" then
        .ok { inv with
          subtotal := roundHalfUp2 ((inv.line_items.map LineItem.amount).sum)
          total_amount := (inv.line_items.map LineItem.amount).sum }
      else
        match TAX_RATES t with
        | some rate =>
          .ok { inv with
            subtotal := roundHalfUp2 ((inv.line_items.map LineItem.amount).sum)
            tax_amount := roundHalfUp2 ((inv.line_items.map LineItem.amount).sum * rate)
            total_amount := roundHalfUp2 ((inv.line_items.map LineItem.amount).sum +
              roundHalfUp2 ((inv.line_items.map LineItem.amount).sum * rate)) }
        | none => .error (.keyError t)
    | none =>
      .ok { inv with
        subtotal := roundHalfUp2 ((inv.line_items.map LineItem.amount).sum)
        total_amount := (inv.line_items.map LineItem.amount).sum }

/-- `Invoice.validate_state_transition`. -/
def Invoice.validate_state_transition (inv : Invoice) (new_status : String) :
    Except Err Bool :=
  if ¬ (new_status ∈ INVOICE_STATUSES) then .error (.invalidStatusTarget new_status)
  else if ¬ (new_status ∈ ALLOWED_STATE_TRANSITIONS inv.status) then
    .error (.invalidTransition inv.status new_status)
  else .ok true

/-- The spec's `checkTransition` boolean view of the guard: `true` exactly
when `validate_state_transition` succeeds. -/
def Invoice.checkTransition (inv : Invoice) (new_status : String) : Bool :=
  match inv.validate_state_transition new_status with
  | .ok _ => true
  | .error _ => false

/-- The issuer's own billing state, hardcoded in `validate_tax_type`. -/
def billingState : String := "Maharashtra"

/-- `Invoice.validate_tax_type`: tax resolution from customer state
vs. the fixed issuer state. `None` and `""` are both falsy. -/
def Invoice.validate_tax_type (inv : Invoice) : Except Err String :=
  match inv.customer_details.state with
  | none => .error .missingCustomerState
  | some s =>
    if s = "" then .error .missingCustomerState
    else
      let tax_type := if s ≠ billingState then "IGST" else "GST"
      if (TAX_RATES tax_type).isSome then .ok tax_type
      else .error (.invalidTaxType tax_type)

/-- `Invoice.generate_invoice_number`: no-op when a (truthy) number is
already present; otherwise stamps `INV-<YYYYMM>-0001` with the literal
placeholder sequence number 1. `period` stands for
`datetime.utcnow().strftime(%Y%m)`. -/
def Invoice.generate_invoice_number (period : String) (inv : Invoice) :
    String × Invoice :=
  if truthyOpt inv.invoice_number then (inv.invoice_number.getD "", inv)
  else
    let n := "INV-" ++ period ++ "-0001"
    (n, { inv with invoice_number := some n })

/-- Raw input dict for `Invoice(**invoice_data)` as built by callers of
the generation service (totals fields are left to their defaults). -/
structure InvoiceInput where
  customer_id : Nat
  invoice_number : Option String := none
  status : String := "DRAFT"
  currency_code : String
  line_items : List LineItemInput
  tax_type : Option String := none
  customer_details : CustomerDetails
  notes : Option String := none
  deriving Repr, DecidableEq

/-- `Invoice(**invoice_data)`: field validators in declaration order
(status, currency, each line item, customer details, notes), then the
`calculate_totals` root validator. -/
def mkInvoice (d : InvoiceInput) : Except Err Invoice :=
  if ¬ (d.status ∈ INVOICE_STATUSES) then .error (.invalidStatusValue d.status)
  else if ¬ (isUpperAlpha3 d.currency_code = true) then
    .error (.fieldError "currency_code")
  else if ¬ (d.currency_code ∈ SUPPORTED_CURRENCIES) then
    .error (.unsupportedCurrency d.currency_code)
  else
    match d.line_items.mapM mkLineItem with
    | .error e => .error e
    | .ok items =>
      if ¬ (d.customer_details.hasRequiredFields = true) then
        .error .missingCustomerFields
      else if ¬ ((d.notes.getD "").length ≤ 1000) then .error (.fieldError "notes")
      else
        Invoice.calculate_totals
          { customer_id := d.customer_id
            invoice_number := d.invoice_number
            status := d.status
            currency_code := d.currency_code
            line_items := items
            tax_type := d.tax_type
            customer_details := d.customer_details
            notes := d.notes }

namespace InvoiceGenerator

/-- `InvoiceGenerator._validate_line_items`: non-empty, then per-item
currency match, raising the message that names both currencies. -/
def validateLineItems (inv : Invoice) : Except Err Unit :=
  if inv.line_items = [] then .error .emptyLineItems
  else
    match inv.line_items.find? (fun it => it.currency_code != inv.currency_code) with
    | some it => .error (.currencyMismatchService it.currency_code inv.currency_code)
    | none => .ok ()

/-- `InvoiceGenerator.calculate_tax`: re-resolves the tax type, looks the
rate up in the method-local `tax_rates` dict (`.get`, so a missing or
falsy rate raises "Invalid tax type"), and rounds
`invoice.subtotal * rate` — the *rounded* subtotal this time. -/
def calculate_tax (inv : Invoice) : Except Err ℚ :=
  match inv.validate_tax_type with
  | .error e => .error e
  | .ok tax_type =>
    match TAX_RATES tax_type with
    | none => .error (.invalidTaxType tax_type)
    | some rate =>
      if rate = 0 then .error (.invalidTaxType tax_type)
      else .ok (roundHalfUp2 (inv.subtotal * rate))

/-- `InvoiceGenerator._calculate_invoice_totals`: sequential field
assignments `subtotal`, `tax_amount`, `total_amount`. -/
def calculateInvoiceTotals (inv : Invoice) : Except Err Invoice :=
  match calculate_tax
      { inv with subtotal := roundHalfUp2 ((inv.line_items.map LineItem.amount).sum) } with
  | .error e => .error e
  | .ok tax =>
    .ok { inv with
      subtotal := roundHalfUp2 ((inv.line_items.map LineItem.amount).sum)
      tax_amount := tax
      total_amount := roundHalfUp2 (roundHalfUp2 ((inv.line_items.map LineItem.amount).sum) + tax) }

/-- The `if not invoice.invoice_number: invoice.invoice_number = ...`
step of `generate_invoice`. `fresh` stands for the date-and-uuid-derived
string `_generate_invoice_number` would produce. -/
def stampNumber (fresh : String) (inv : Invoice) : Invoice :=
  if truthyOpt inv.invoice_number then inv
  else { inv with invoice_number := some fresh }

/-- `InvoiceGenerator.generate_invoice`: model construction, number
stamping when absent, tax-type resolution, line-item validation, totals,
and the final `status = 'DRAFT'` assignment. -/
def generate_invoice (fresh : String) (d : InvoiceInput) : Except Err Invoice :=
  match mkInvoice d with
  | .error e => .error e
  | .ok inv0 =>
    match (stampNumber fresh inv0).validate_tax_type with
    | .error e => .error e
    | .ok tax_type =>
      match validateLineItems { stampNumber fresh inv0 with tax_type := some tax_type } with
      | .error e => .error e
      | .ok _ =>
        match calculateInvoiceTotals { stampNumber fresh inv0 with tax_type := some tax_type } with
        | .error e => .error e
        | .ok inv3 => .ok { inv3 with status := "DRAFT" }

end InvoiceGenerator

/-- `customer_details` of the worked end-to-end example (§8 of the spec). -/
def exampleCustomer : CustomerDetails :=
  { name := some "Acme Corp"
    address := some "12 MG Road, Bengaluru"
    tax_id := some "29ABCDE1234F1Z5"
    state := some "Karnataka" }

/-- The worked end-to-end generation input: customer state "Karnataka",
currency "USD", one line item qty=1000, unit_price=0.01. -/
def exampleInvoiceInput : InvoiceInput :=
  { customer_id := 7
    currency_code := "USD"
    line_items := [exampleItemInput]
    customer_details := exampleCustomer }

theorem isTwoDp_sum {l : List ℚ} (h : ∀ x ∈ l, IsTwoDp x) : IsTwoDp l.sum := by
  induction l with
  | nil => exact ⟨0, by norm_num⟩
  | cons a t ih =>
    rw [List.sum_cons]
    exact isTwoDp_add (h a (by simp)) (ih fun x hx => h x (by simp [hx]))

/-- **C1.** For every `Invoice` with a non-empty list of line items all
sharing the invoice's currency code (and whose amounts are 2-decimal
values, as every constructed `LineItem`'s amount is), `calculate_totals`
succeeds and establishes: `subtotal = round_half_up(Σ amount, 2)`; if
`tax_type` is set (to a rate-table key), `tax_amount =
round_half_up(subtotal * rate, 2)` and `total_amount = subtotal +
tax_amount`; if `tax_type` is unset, `total_amount = subtotal`. -/
theorem C1_totals_invariant (inv : Invoice)
    (hne : inv.line_items ≠ [])
    (hcur : ∀ it ∈ inv.line_items, it.currency_code = inv.currency_code)
    (hdp : ∀ it ∈ inv.line_items, IsTwoDp it.amount)
    (htt : inv.tax_type = none ∨ ∃ t r, inv.tax_type = some t ∧ TAX_RATES t = some r) :
    ∃ inv', inv.calculate_totals = .ok inv' ∧
      inv'.subtotal = roundHalfUp2 ((inv.line_items.map LineItem.amount).sum) ∧
      (inv.tax_type = none → inv'.total_amount = inv'.subtotal) ∧
      (∀ t r, inv.tax_type = some t → TAX_RATES t = some r →
        inv'.tax_amount = roundHalfUp2 (inv'.subtotal * r) ∧
        inv'.total_amount = inv'.subtotal + inv'.tax_amount) := by
  have hS : IsTwoDp ((inv.line_items.map LineItem.amount).sum) := by
    refine isTwoDp_sum ?_
    intro x hx
    obtain ⟨it, hit, rfl⟩ := List.mem_map.mp hx
    exact hdp it hit
  have hround : roundHalfUp2 ((inv.line_items.map LineItem.amount).sum) =
      (inv.line_items.map LineItem.amount).sum := roundHalfUp2_of_isTwoDp hS
  have hall : (inv.line_items.all fun it => it.currency_code == inv.currency_code) = true := by
    rw [List.all_eq_true]
    intro it hit
    exact beq_iff_eq.mpr (hcur it hit)
  rcases htt with hnone | ⟨t, r, htt, hr⟩
  · have hcalc : inv.calculate_totals =
        .ok { inv with
          subtotal := roundHalfUp2 ((inv.line_items.map LineItem.amount).sum)
          total_amount := (inv.line_items.map LineItem.amount).sum } := by
      simp only [Invoice.calculate_totals, if_neg hne, hall, not_true, if_false, hnone]
    refine ⟨_, hcalc, by simp, fun _ => by simpa using hround.symm, ?_⟩
    intro t r ht
    rw [hnone] at ht
    exact absurd ht (by simp)
  · have htne : t ≠ "" := by
      intro h0
      rw [h0] at hr
      simp [TAX_RATES] at hr
    have hcalc : inv.calculate_totals =
        .ok { inv with
          subtotal := roundHalfUp2 ((inv.line_items.map LineItem.amount).sum)
          tax_amount := roundHalfUp2 ((inv.line_items.map LineItem.amount).sum * r)
          total_amount := roundHalfUp2 ((inv.line_items.map LineItem.amount).sum +
            roundHalfUp2 ((inv.line_items.map LineItem.amount).sum * r)) } := by
      simp only [Invoice.calculate_totals, if_neg hne, hall, not_true, if_false, htt,
        if_neg htne, hr]
    refine ⟨_, hcalc, by simp, ?_, ?_⟩
    · intro h0
      rw [htt] at h0
      exact absurd h0 (by simp)
    · intro t' r' ht' hr'
      rw [htt] at ht'
      injection ht' with ht'
      subst ht'
      rw [hr] at hr'
      injection hr' with hr'
      subst hr'
      constructor
      · simp [hround]
      · have htax : IsTwoDp (roundHalfUp2 ((inv.line_items.map LineItem.amount).sum * r)) :=
          isTwoDp_roundHalfUp2 _
        simp only [roundHalfUp2_of_isTwoDp (isTwoDp_add hS htax)]
        simp [hround]

/-- A concrete invoice for discharging the hypotheses of `C1_totals_invariant`:
one USD line item of amount 10.00 and tax type IGST. -/
def wItem : LineItem :=
  { service_name := "OTP"
    description := "auth"
    quantity := 1000
    unit_price := 1/100
    amount := 10
    currency_code := "USD" }

def wInvoice : Invoice :=
  { customer_id := 7
    currency_code := "USD"
    line_items := [wItem]
    tax_type := some "IGST"
    customer_details := exampleCustomer }

/-- Witness for C1: the hypotheses hold at `wInvoice` and the theorem
applies there. -/
theorem C1_totals_invariant_witness :
    ∃ inv', wInvoice.calculate_totals = .ok inv' ∧
      inv'.subtotal = roundHalfUp2 ((wInvoice.line_items.map LineItem.amount).sum) ∧
      (wInvoice.tax_type = none → inv'.total_amount = inv'.subtotal) ∧
      (∀ t r, wInvoice.tax_type = some t → TAX_RATES t = some r →
        inv'.tax_amount = roundHalfUp2 (inv'.subtotal * r) ∧
        inv'.total_amount = inv'.subtotal + inv'.tax_amount) :=
  C1_totals_invariant wInvoice (by simp [wInvoice])
    (by intro it hit; simp [wInvoice] at hit; subst hit; rfl)
    (by intro it hit; simp [wInvoice] at hit; subst hit; exact ⟨1000, by norm_num [wItem]⟩)
    (Or.inr ⟨"IGST", 18/100, rfl, rfl⟩)

/-- **C2.** A line item's `amount` always equals
`round_half_up(quantity * unit_price, 2)`: it is computed so at creation
(whatever `amount` the input dict carried), recomputed by re-validation
whenever `quantity` or `unit_price` is assigned, and an assignment to
`amount` itself is overwritten by the recomputation — it is never
independently settable. -/
theorem C2_amount_invariant :
    (∀ (d : LineItemInput) (it : LineItem), mkLineItem d = .ok it →
      it.amount = roundHalfUp2 ((d.quantity : ℚ) * d.unit_price)) ∧
    (∀ (it : LineItem) (q : Int) (it' : LineItem), it.setQuantity q = .ok it' →
      it'.amount = roundHalfUp2 ((q : ℚ) * it.unit_price)) ∧
    (∀ (it : LineItem) (p : ℚ) (it' : LineItem), it.setUnitPrice p = .ok it' →
      it'.amount = roundHalfUp2 ((it.quantity : ℚ) * p)) ∧
    (∀ (it : LineItem) (a : ℚ), (it.setAmount a).amount =
      roundHalfUp2 ((it.quantity : ℚ) * it.unit_price)) := by
  refine ⟨?_, ?_, ?_, ?_⟩
  · intro d it h
    unfold mkLineItem at h
    split_ifs at h
    injection h with h
    subst h
    rfl
  · intro it q it' h
    unfold LineItem.setQuantity at h
    split_ifs at h
    injection h with h
    subst h
    rfl
  · intro it p it' h
    unfold LineItem.setUnitPrice at h
    split_ifs at h
    injection h with h
    subst h
    rfl
  · intro it a
    rfl

/-- **C4.** Tax resolution is a pure function of the customer state and
the (fixed) issuer state: a missing or empty customer state fails with
the missing-jurisdiction error; otherwise it returns "GST" when the
customer state equals the issuer state and "IGST" when they differ; and
two invoices with the same customer state resolve identically. -/
theorem C4_tax_resolution :
    (∀ inv : Invoice,
      (inv.customer_details.state = none ∨ inv.customer_details.state = some "") →
      inv.validate_tax_type = .error .missingCustomerState) ∧
    (∀ (inv : Invoice) (s : String), inv.customer_details.state = some s → s ≠ "" →
      inv.validate_tax_type = .ok (if s = billingState then "GST" else "IGST")) ∧
    (∀ inv1 inv2 : Invoice,
      inv1.customer_details.state = inv2.customer_details.state →
      inv1.validate_tax_type = inv2.validate_tax_type) := by
  refine ⟨?_, ?_, ?_⟩
  · intro inv h
    rcases h with h | h <;> simp [Invoice.validate_tax_type, h]
  · intro inv s hs hne
    by_cases hb : s = billingState
    · simp +decide [Invoice.validate_tax_type, hs, hne, hb, TAX_RATES, billingState]
    · simp [Invoice.validate_tax_type, hs, hne, hb, TAX_RATES]
  · intro inv1 inv2 h
    unfold Invoice.validate_tax_type
    rw [h]

/-- **C5.** Every (from, to) pair of statuses outside the allowed table
makes `validate_state_transition` fail with the invalid-transition error
carrying both statuses, and `checkTransition` return `false`; in
particular `PAID` and `CANCELLED` are absorbing — no target (itself
included) is accepted from them — while a tabled pair such as
DRAFT→PENDING succeeds. -/
theorem C5_transition_guard :
    (∀ (inv : Invoice) (tgt : String),
      inv.status ∈ INVOICE_STATUSES → tgt ∈ INVOICE_STATUSES →
      tgt ∉ ALLOWED_STATE_TRANSITIONS inv.status →
      inv.validate_state_transition tgt = .error (.invalidTransition inv.status tgt) ∧
      inv.checkTransition tgt = false) ∧
    (∀ (inv : Invoice) (tgt : String),
      (inv.status = "PAID" ∨ inv.status = "CANCELLED") →
      inv.checkTransition tgt = false) ∧
    (∀ inv : Invoice, inv.status ∈ INVOICE_STATUSES →
      ∀ tgt ∈ ALLOWED_STATE_TRANSITIONS inv.status,
      inv.validate_state_transition tgt = .ok true ∧ inv.checkTransition tgt = true) := by
  refine ⟨?_, ?_, ?_⟩
  · intro inv tgt _ h2 h3
    have hv : inv.validate_state_transition tgt = .error (.invalidTransition inv.status tgt) := by
      unfold Invoice.validate_state_transition
      rw [if_neg (not_not_intro h2), if_pos h3]
    exact ⟨hv, by simp [Invoice.checkTransition, hv]⟩
  · intro inv tgt h
    unfold Invoice.checkTransition Invoice.validate_state_transition
    by_cases htgt : tgt ∈ INVOICE_STATUSES
    · have hal : ALLOWED_STATE_TRANSITIONS inv.status = [] := by
        rcases h with h | h <;> simp +decide [ALLOWED_STATE_TRANSITIONS, h]
      rw [if_neg (not_not_intro htgt), if_pos (by simp [hal])]
    · rw [if_pos htgt]
  · intro inv h1 tgt h2
    have key : ∀ st ∈ INVOICE_STATUSES, ∀ tg ∈ ALLOWED_STATE_TRANSITIONS st,
        tg ∈ INVOICE_STATUSES := by decide
    have htgt : tgt ∈ INVOICE_STATUSES := key inv.status h1 tgt h2
    have hv : inv.validate_state_transition tgt = .ok true := by
      unfold Invoice.validate_state_transition
      rw [if_neg (not_not_intro htgt), if_neg (not_not_intro h2)]
    exact ⟨hv, by simp [Invoice.checkTransition, hv]⟩

theorem stamped_number_ne_empty (p : String) : ("INV-" ++ p ++ "-0001") ≠ "" := by
  intro h
  have hlen := congrArg String.length h
  simp [String.length_append] at hlen
  exact absurd hlen.1.1 (by decide)

/-- **C7.** Invoice-number allocation is idempotent: with a (truthy)
number already set it is a no-op returning that number and leaving the
invoice untouched; and for any invoice, a second allocation returns
exactly the first call's number and state, performing no further
change. -/
theorem C7_allocation_idempotent :
    (∀ (inv : Invoice) (n period : String),
      inv.invoice_number = some n → n ≠ "" →
      Invoice.generate_invoice_number period inv = (n, inv)) ∧
    (∀ (inv : Invoice) (p1 p2 : String),
      Invoice.generate_invoice_number p2 (Invoice.generate_invoice_number p1 inv).2 =
        Invoice.generate_invoice_number p1 inv) := by
  constructor
  · intro inv n period h hne
    unfold Invoice.generate_invoice_number
    rw [if_pos (by simp [truthyOpt, h, hne]), h]
    rfl
  · intro inv p1 p2
    by_cases h : truthyOpt inv.invoice_number = true
    · simp [Invoice.generate_invoice_number, h]
    · unfold Invoice.generate_invoice_number
      rw [if_neg h]
      have h2 : truthyOpt (some ("INV-" ++ p1 ++ "-0001")) = true := by
        simp [truthyOpt, stamped_number_ne_empty p1]
      simp [h2]

/-- Two distinct invoices, both lacking an invoice number. -/
def wInvA : Invoice :=
  { customer_id := 1, currency_code := "USD", customer_details := exampleCustomer }

def wInvB : Invoice :=
  { customer_id := 2, currency_code := "USD", customer_details := exampleCustomer }

/-- **C8** (the concurrency claim fails already sequentially, as the
code's own comments admit: the sequence number is the literal 1, a
placeholder for a database sequence). Two different invoices that both
lack an invoice number receive the *same* number from the allocator in
the same period — allocations are not pairwise distinct. -/
theorem C8_allocation_collision :
    wInvA ≠ wInvB ∧
    wInvA.invoice_number = none ∧ wInvB.invoice_number = none ∧
    (Invoice.generate_invoice_number "202601" wInvA).1 =
      (Invoice.generate_invoice_number "202601" wInvB).1 ∧
    (Invoice.generate_invoice_number "202601" wInvA).1 = "INV-202601-0001" := by
  refine ⟨?_, rfl, rfl, rfl, rfl⟩
  intro h
  have := congrArg Invoice.customer_id h
  simp [wInvA, wInvB] at this

/-- **C9.** At the model level an `Invoice` with an empty `line_items`
list constructs without error — `calculate_totals` returns early and
`subtotal`, `tax_amount`, `total_amount` stay at their default 0.00 —
while the generation service's line-item validation is what rejects an
empty list. -/
theorem C9_empty_line_items :
    (∀ d : InvoiceInput, d.line_items = [] →
      d.status ∈ INVOICE_STATUSES → isUpperAlpha3 d.currency_code = true →
      d.currency_code ∈ SUPPORTED_CURRENCIES →
      d.customer_details.hasRequiredFields = true →
      (d.notes.getD "").length ≤ 1000 →
      ∃ inv, mkInvoice d = .ok inv ∧ inv.line_items = [] ∧
        inv.subtotal = 0 ∧ inv.tax_amount = 0 ∧ inv.total_amount = 0) ∧
    (∀ inv : Invoice, inv.line_items = [] →
      InvoiceGenerator.validateLineItems inv = .error .emptyLineItems) := by
  constructor
  · intro d hle hst hre hsup hcd hnotes
    have hmap : d.line_items.mapM mkLineItem = .ok [] := by
      rw [hle]
      rfl
    have hok : mkInvoice d = .ok
        { customer_id := d.customer_id
          invoice_number := d.invoice_number
          status := d.status
          currency_code := d.currency_code
          line_items := []
          tax_type := d.tax_type
          customer_details := d.customer_details
          notes := d.notes } := by
      unfold mkInvoice
      rw [if_neg (not_not_intro hst), if_neg (not_not_intro hre),
        if_neg (not_not_intro hsup), hmap]
      simp only [if_neg (not_not_intro hcd), if_neg (not_not_intro hnotes)]
      rfl
    exact ⟨_, hok, rfl, rfl, rfl, rfl⟩
  · intro inv h
    simp [InvoiceGenerator.validateLineItems, h]

theorem calculate_totals_preserves {inv inv' : Invoice}
    (h : inv.calculate_totals = .ok inv') :
    inv'.line_items = inv.line_items ∧ inv'.customer_details = inv.customer_details ∧
    inv'.currency_code = inv.currency_code ∧ inv'.invoice_number = inv.invoice_number ∧
    inv'.tax_type = inv.tax_type ∧ inv'.status = inv.status := by
  unfold Invoice.calculate_totals at h
  iterate 3
    all_goals try split_ifs at h
    all_goals try split at h
    all_goals try exact Except.noConfusion h
    all_goals try (injection h with h; subst h; exact ⟨rfl, rfl, rfl, rfl, rfl, rfl⟩)

theorem mkInvoice_ok_shape {d : InvoiceInput} {inv : Invoice}
    (h : mkInvoice d = .ok inv) :
    ∃ items, d.line_items.mapM mkLineItem = .ok items ∧
      inv.line_items = items ∧ inv.customer_details = d.customer_details ∧
      inv.invoice_number = d.invoice_number ∧ inv.currency_code = d.currency_code := by
  unfold mkInvoice at h
  split_ifs at h
  all_goals try (split at h <;> exact Except.noConfusion h)
  split at h
  next e heq => exact Except.noConfusion h
  next items heq =>
    obtain ⟨hl, hcd, hcc, hin, _, _⟩ := calculate_totals_preserves h
    exact ⟨items, heq, hl, hcd, hin, hcc⟩

theorem validate_tax_type_values {inv : Invoice} {t : String}
    (h : inv.validate_tax_type = .ok t) : TAX_RATES t = some (18/100) := by
  have ht : t = "GST" ∨ t = "IGST" := by
    simp only [Invoice.validate_tax_type] at h
    split at h
    next => exact absurd h (by simp)
    next s heq =>
      split_ifs at h
      all_goals (injection h with h; subst h; simp)
  rcases ht with rfl | rfl <;> rfl

theorem calculate_tax_shape {inv : Invoice} {q : ℚ}
    (h : InvoiceGenerator.calculate_tax inv = .ok q) :
    q = roundHalfUp2 (inv.subtotal * (18/100)) := by
  unfold InvoiceGenerator.calculate_tax at h
  split at h
  next e heq => exact absurd h (by simp)
  next t heq =>
    have hr := validate_tax_type_values heq
    rw [hr] at h
    split at h
    next heq2 => exact Option.noConfusion heq2
    next rate hrate =>
      injection hrate with hrate
      rw [if_neg (by rw [← hrate]; norm_num)] at h
      injection h with h
      rw [← h, hrate]

theorem calculateInvoiceTotals_shape {inv inv' : Invoice}
    (h : InvoiceGenerator.calculateInvoiceTotals inv = .ok inv') :
    inv'.line_items = inv.line_items ∧
    inv'.subtotal = roundHalfUp2 ((inv.line_items.map LineItem.amount).sum) ∧
    inv'.tax_amount = roundHalfUp2 (inv'.subtotal * (18/100)) ∧
    inv'.total_amount = roundHalfUp2 (inv'.subtotal + inv'.tax_amount) := by
  unfold InvoiceGenerator.calculateInvoiceTotals at h
  split at h
  next e heq => exact absurd h (by simp)
  next tax heq =>
    have htax := calculate_tax_shape heq
    injection h with h
    subst h
    exact ⟨rfl, rfl, by simpa using htax, rfl⟩

theorem stampNumber_fields (fresh : String) (inv : Invoice) :
    (InvoiceGenerator.stampNumber fresh inv).line_items = inv.line_items ∧
    (InvoiceGenerator.stampNumber fresh inv).customer_details = inv.customer_details := by
  unfold InvoiceGenerator.stampNumber
  split <;> exact ⟨rfl, rfl⟩

/-- Every successfully generated invoice's monetary fields are determined
by the parsed line items alone (both tax types carry the same 18% rate). -/
theorem generate_ok_numbers {fresh : String} {d : InvoiceInput} {inv : Invoice}
    (h : InvoiceGenerator.generate_invoice fresh d = .ok inv) :
    ∃ items, d.line_items.mapM mkLineItem = .ok items ∧
      inv.line_items = items ∧
      inv.subtotal = roundHalfUp2 ((items.map LineItem.amount).sum) ∧
      inv.tax_amount = roundHalfUp2 (inv.subtotal * (18/100)) ∧
      inv.total_amount = roundHalfUp2 (inv.subtotal + inv.tax_amount) := by
  unfold InvoiceGenerator.generate_invoice at h
  split at h
  next e heq => exact absurd h (by simp)
  next inv0 hmk =>
    split at h
    next e heq => exact absurd h (by simp)
    next tt hv =>
      split at h
      next e heq => exact absurd h (by simp)
      next u hvl =>
        split at h
        next e heq => exact absurd h (by simp)
        next inv3 hct =>
          injection h with h
          subst h
          obtain ⟨items, hm, hli0, _, _, _⟩ := mkInvoice_ok_shape hmk
          obtain ⟨hli3, hsub, htax, htot⟩ := calculateInvoiceTotals_shape hct
          have hli : inv3.line_items = items := by
            rw [hli3]
            show (InvoiceGenerator.stampNumber fresh inv0).line_items = items
            rw [(stampNumber_fields fresh inv0).1, hli0]
          refine ⟨items, hm, hli, ?_, ?_, ?_⟩
          · show inv3.subtotal = _
            rw [hsub]
            show roundHalfUp2 (((InvoiceGenerator.stampNumber fresh inv0).line_items.map
              LineItem.amount).sum) = _
            rw [(stampNumber_fields fresh inv0).1, hli0]
          · exact htax
          · exact htot

/-- Replace the customer state of a generation input, leaving every other
field unchanged. -/
def InvoiceInput.withState (d : InvoiceInput) (s : String) : InvoiceInput :=
  { d with customer_details := { d.customer_details with state := some s } }

/-- **C10.** Because GST and IGST share the rate 0.18, the computed
amounts are independent of the customer's jurisdiction: two generation
inputs identical except for the (non-empty) `customer_details.state`
yield invoices with equal subtotal, tax_amount and total_amount —
the invoices can differ at most in the `tax_type` label (and customer
details). -/
theorem C10_jurisdiction_independent (f1 f2 : String) (d : InvoiceInput)
    (s1 s2 : String) (inv1 inv2 : Invoice)
    (h1 : InvoiceGenerator.generate_invoice f1 (d.withState s1) = .ok inv1)
    (h2 : InvoiceGenerator.generate_invoice f2 (d.withState s2) = .ok inv2) :
    inv1.subtotal = inv2.subtotal ∧ inv1.tax_amount = inv2.tax_amount ∧
    inv1.total_amount = inv2.total_amount := by
  obtain ⟨items1, hm1, _, hsub1, htax1, htot1⟩ := generate_ok_numbers h1
  obtain ⟨items2, hm2, _, hsub2, htax2, htot2⟩ := generate_ok_numbers h2
  have hitems : items1 = items2 := by
    have : (d.withState s1).line_items = (d.withState s2).line_items := rfl
    rw [this] at hm1
    rw [hm1] at hm2
    injection hm2
  subst hitems
  have hsub : inv1.subtotal = inv2.subtotal := by rw [hsub1, hsub2]
  refine ⟨hsub, ?_, ?_⟩
  · rw [htax1, htax2, hsub]
  · rw [htot1, htot2, hsub, htax1, htax2, hsub]

/-- Witness for C10: both generations of the worked example — once with
state "Maharashtra", once with "Karnataka" — succeed, and the theorem
applies to them. -/
theorem C10_jurisdiction_independent_witness :
    ∃ invA invB,
      InvoiceGenerator.generate_invoice "F1" (exampleInvoiceInput.withState "Maharashtra") =
        .ok invA ∧
      InvoiceGenerator.generate_invoice "F2" (exampleInvoiceInput.withState "Karnataka") =
        .ok invB ∧
      invA.subtotal = invB.subtotal ∧ invA.tax_amount = invB.tax_amount ∧
      invA.total_amount = invB.total_amount := by
  have h2 : hasAtMost2Dp ((1 : ℚ)/100) = true := by
    have : ((1 : ℚ)/100) = ((1 : ℤ) : ℚ) / 100 := by norm_num
    rw [this]; exact hasAtMost2Dp_intDiv 1
  obtain ⟨invA, hA⟩ : ∃ invA,
      InvoiceGenerator.generate_invoice "F1" (exampleInvoiceInput.withState "Maharashtra") =
        .ok invA := by
    cases hg : InvoiceGenerator.generate_invoice "F1"
        (exampleInvoiceInput.withState "Maharashtra") with
    | ok v => exact ⟨v, rfl⟩
    | error e =>
    exfalso
    revert hg
    norm_num +decide [InvoiceGenerator.generate_invoice, mkInvoice,
      InvoiceGenerator.stampNumber, InvoiceGenerator.validateLineItems,
      InvoiceGenerator.calculateInvoiceTotals, InvoiceGenerator.calculate_tax,
      exampleInvoiceInput, exampleItemInput, exampleCustomer, InvoiceInput.withState,
      mkLineItem, h2, isUpperAlpha3, SUPPORTED_CURRENCIES, INVOICE_STATUSES,
      LineItem.calculate_amount, Invoice.calculate_totals,
      Invoice.validate_tax_type, TAX_RATES, billingState,
      CustomerDetails.hasRequiredFields, truthyOpt,
      List.mapM, List.mapM.loop, bind, Except.bind, pure, Except.pure]
    exact fun hcon => Except.noConfusion hcon
  obtain ⟨invB, hB⟩ : ∃ invB,
      InvoiceGenerator.generate_invoice "F2" (exampleInvoiceInput.withState "Karnataka") =
        .ok invB := by
    cases hg : InvoiceGenerator.generate_invoice "F2"
        (exampleInvoiceInput.withState "Karnataka") with
    | ok v => exact ⟨v, rfl⟩
    | error e =>
    exfalso
    revert hg
    norm_num +decide [InvoiceGenerator.generate_invoice, mkInvoice,
      InvoiceGenerator.stampNumber, InvoiceGenerator.validateLineItems,
      InvoiceGenerator.calculateInvoiceTotals, InvoiceGenerator.calculate_tax,
      exampleInvoiceInput, exampleItemInput, exampleCustomer, InvoiceInput.withState,
      mkLineItem, h2, isUpperAlpha3, SUPPORTED_CURRENCIES, INVOICE_STATUSES,
      LineItem.calculate_amount, Invoice.calculate_totals,
      Invoice.validate_tax_type, TAX_RATES, billingState,
      CustomerDetails.hasRequiredFields, truthyOpt,
      List.mapM, List.mapM.loop, bind, Except.bind, pure, Except.pure]
    exact fun hcon => Except.noConfusion hcon
  exact ⟨invA, invB, hA, hB,
    C10_jurisdiction_independent "F1" "F2" exampleInvoiceInput "Maharashtra" "Karnataka"
      invA invB hA hB⟩

/-- **C3.** End-to-end example: generating from input with customer state
"Karnataka" (issuer "Maharashtra"), currency "USD" and one line item
qty=1000, unit_price=0.01 succeeds with tax_type "IGST", subtotal 10.00,
tax_amount 1.80, total_amount 11.80 and status "DRAFT" — whatever fresh
invoice number the allocator hands out. -/
theorem C3_end_to_end (fresh : String) :
    (InvoiceGenerator.generate_invoice fresh exampleInvoiceInput).map
      (fun i => (i.tax_type, i.subtotal, i.tax_amount, i.total_amount, i.status)) =
    .ok (some "IGST", 10, 1.80, 11.80, "DRAFT") := by
  have h2 : hasAtMost2Dp ((1 : ℚ)/100) = true := by
    have : ((1 : ℚ)/100) = ((1 : ℤ) : ℚ) / 100 := by norm_num
    rw [this]; exact hasAtMost2Dp_intDiv 1
  norm_num +decide [InvoiceGenerator.generate_invoice, mkInvoice,
    InvoiceGenerator.stampNumber, InvoiceGenerator.validateLineItems,
    InvoiceGenerator.calculateInvoiceTotals,
    InvoiceGenerator.calculate_tax, exampleInvoiceInput, exampleItemInput,
    exampleCustomer, mkLineItem, h2, isUpperAlpha3, SUPPORTED_CURRENCIES,
    INVOICE_STATUSES, LineItem.calculate_amount, roundHalfUp2,
    Invoice.calculate_totals, Invoice.validate_tax_type, TAX_RATES, billingState,
    CustomerDetails.hasRequiredFields, truthyOpt, Except.map,
    List.mapM, List.mapM.loop, bind, Except.bind, pure, Except.pure]

/-- A line item input in INR, for an invoice in USD. -/
def mismatchItemInput : LineItemInput :=
  { service_name := "OTP"
    description := "auth"
    quantity := 1000
    unit_price := 1/100
    currency_code := "INR" }

/-- The parsed form of `mismatchItemInput`. -/
def mismatchItem : LineItem :=
  { service_name := "OTP"
    description := "auth"
    quantity := 1000
    unit_price := 1/100
    amount := 10
    currency_code := "INR" }

/-- A generation input whose invoice currency ("USD") differs from its
single line item's currency ("INR"). -/
def mismatchInvoiceInput : InvoiceInput :=
  { customer_id := 7
    currency_code := "USD"
    line_items := [mismatchItemInput]
    customer_details := exampleCustomer }

/-- **C6, counterexample.** On the USD-invoice/INR-item input, generation
does fail and no invoice is constructed, but the error raised is the
model-level "all line items must use the same currency" one, which names
no currencies — not the service-level error that names the offending
item's currency and the invoice's: the model check fires first, so the
claim's "naming" part is false on this input. -/
theorem C6_counterexample :
    InvoiceGenerator.generate_invoice "F" mismatchInvoiceInput =
      .error .currencyMismatchModel ∧
    Err.currencyMismatchModel ≠ Err.currencyMismatchService "INR" "USD" := by
  constructor
  · have h2 : hasAtMost2Dp ((1 : ℚ)/100) = true := by
      have h3 : ((1 : ℚ)/100) = ((1 : ℤ) : ℚ) / 100 := by norm_num
      rw [h3]; exact hasAtMost2Dp_intDiv 1
    norm_num +decide [InvoiceGenerator.generate_invoice, mkInvoice,
      InvoiceGenerator.stampNumber, mismatchInvoiceInput, mismatchItemInput,
      exampleCustomer, mkLineItem, h2, isUpperAlpha3, SUPPORTED_CURRENCIES,
      INVOICE_STATUSES, LineItem.calculate_amount, roundHalfUp2,
      Invoice.calculate_totals, CustomerDetails.hasRequiredFields,
      List.mapM, List.mapM.loop, bind, Except.bind, pure, Except.pure]
  · decide

/-- **C6, amended.** For every generation input that passes the field
validations preceding the currency check and has at least one line item
whose currency differs from the invoice's, construction — and hence
generation — fails with the model-level currency-mismatch error (which
does not name the currencies; the service-level check that would name
them is unreachable), and no invoice value is produced. -/
theorem C6_currency_mismatch_rejection (fresh : String) (d : InvoiceInput)
    (items : List LineItem)
    (hst : d.status ∈ INVOICE_STATUSES)
    (hre : isUpperAlpha3 d.currency_code = true)
    (hsup : d.currency_code ∈ SUPPORTED_CURRENCIES)
    (hcd : d.customer_details.hasRequiredFields = true)
    (hnotes : (d.notes.getD "").length ≤ 1000)
    (hok : d.line_items.mapM mkLineItem = .ok items)
    (hmm : ∃ it ∈ items, ¬ it.currency_code = d.currency_code) :
    mkInvoice d = .error .currencyMismatchModel ∧
    InvoiceGenerator.generate_invoice fresh d = .error .currencyMismatchModel := by
  have hne : items ≠ [] := by
    obtain ⟨it, hit, _⟩ := hmm
    exact List.ne_nil_of_mem hit
  have hall : (items.all fun it => it.currency_code == d.currency_code) = false := by
    rw [List.all_eq_false]
    obtain ⟨it, hit, hcur⟩ := hmm
    exact ⟨it, hit, by simpa using hcur⟩
  have hmk : mkInvoice d = .error .currencyMismatchModel := by
    unfold mkInvoice
    rw [if_neg (not_not_intro hst), if_neg (not_not_intro hre),
      if_neg (not_not_intro hsup), hok]
    simp only [if_neg (not_not_intro hcd), if_neg (not_not_intro hnotes)]
    unfold Invoice.calculate_totals
    rw [if_neg (by simpa using hne), if_pos (by simp [hall])]
  refine ⟨hmk, ?_⟩
  unfold InvoiceGenerator.generate_invoice
  rw [hmk]

/-- Witness for the amended C6 at the concrete USD/INR input. -/
theorem C6_currency_mismatch_rejection_witness :
    mkInvoice mismatchInvoiceInput = .error .currencyMismatchModel ∧
    InvoiceGenerator.generate_invoice "F" mismatchInvoiceInput =
      .error .currencyMismatchModel :=
  C6_currency_mismatch_rejection "F" mismatchInvoiceInput [mismatchItem]
    (by decide) (by decide) (by decide) (by decide) (by decide)
    (by
      have h2 : hasAtMost2Dp ((1 : ℚ)/100) = true := by
        have h3 : ((1 : ℚ)/100) = ((1 : ℤ) : ℚ) / 100 := by norm_num
        rw [h3]; exact hasAtMost2Dp_intDiv 1
      norm_num +decide [mismatchInvoiceInput, mismatchItemInput, mismatchItem,
        mkLineItem, h2, isUpperAlpha3, SUPPORTED_CURRENCIES,
        LineItem.calculate_amount, roundHalfUp2,
        List.mapM, List.mapM.loop, bind, Except.bind, pure, Except.pure])
    ⟨mismatchItem, by simp, by decide⟩
